import Mathlib

/-!
Shallow embedding of the Google Certified Device Checker service
(`src/app/main.py`) and proofs about its behaviour.

Python strings are modelled as Lean `String`, Python `int` as `Int`,
Python `Optional[str]` as `Option String`.  `HTTPException` is modelled
as a structure carrying status code, detail and headers, and a handler
that can raise it returns `Except HttpException α`.
-/

namespace DeviceChecker

/-- One row of the dataset (`DeviceRecord` pydantic model, main.py 104-108). -/
structure DeviceRecord where
  retail_branding : String
  marketing_name : String
  device : String
  model : String
deriving Repr, DecidableEq

/-- Response payload of the query endpoint (`DeviceLookupResponse`,
main.py 111-116). -/
structure DeviceLookupResponse where
  total_matches : Int
  limit : Int
  page : Int
  total_pages : Int
  results : List DeviceRecord
deriving Repr, DecidableEq

/-- `fastapi.HTTPException`: status code, detail message, optional headers. -/
structure HttpException where
  status_code : Nat
  detail : String
  headers : List (String × String)
deriving Repr, DecidableEq

/-- Python truthiness of an `Optional[str]`: `None` and `""` are falsy
(`if brand:` in `_filter_devices`, `any([...])` in `check_device`). -/
def truthy : Option String → Bool
  | none => false
  | some s => !(s == "")

/-- Plain substring search: does `needle` occur contiguously in `haystack`? -/
def isInfixOfB (needle : List Char) : List Char → Bool
  | [] => needle.isEmpty
  | c :: rest => needle.isPrefixOf (c :: rest) || isInfixOfB needle rest

/-- Python `str.strip()` on a character list: drop leading and trailing
whitespace. -/
def stripChars (l : List Char) : List Char :=
  ((l.dropWhile Char.isWhitespace).reverse.dropWhile Char.isWhitespace).reverse

/-- Python `str.strip()`. -/
def pyStrip (s : String) : String :=
  String.mk (stripChars s.toList)

/-- Python `str.split(sep)` for a one-character separator, on character
lists: splits at every occurrence of `sep`, keeping empty pieces. -/
def splitChar (sep : Char) : List Char → List (List Char)
  | [] => [[]]
  | c :: rest =>
    let groups := splitChar sep rest
    if c == sep then [] :: groups
    else
      match groups with
      | [] => [[c]]
      | g :: gs => (c :: g) :: gs

/-- Python `str.split(",")`. -/
def pySplitComma (s : String) : List String :=
  (splitChar ',' s.toList).map String.mk

/-- `Series.str.contains(pat, case=False, regex=False)` applied to one cell:
case-insensitive substring containment (both sides lowercased character by
character — ASCII case folding — then plain substring search). -/
def containsCI (s pat : String) : Bool :=
  isInfixOfB (pat.toList.map Char.toLower) (s.toList.map Char.toLower)

/-- The four optional filter patterns of a query (`brand`, `marketing_name`,
`device`, `model` query parameters of `check_device`). -/
structure QueryFilter where
  brand : Option String
  marketing_name : Option String
  device : Option String
  model : Option String
deriving Repr, DecidableEq

/-- `df["column"].str.contains(pat, case=False, na=False, regex=False)`:
the Boolean series of per-row containment results (main.py 176-184). -/
def seriesContains (tbl : List DeviceRecord) (proj : DeviceRecord → String)
    (pat : String) : List Bool :=
  tbl.map fun r => containsCI (proj r) pat

/-- `mask &= other`: pointwise conjunction of two Boolean series. -/
def maskAnd (m1 m2 : List Bool) : List Bool :=
  List.zipWith and m1 m2

/-- The mask built by `_filter_devices` (main.py 173-184): start from the
all-`True` series, then `&=` in the containment series of each field whose
pattern is truthy, in source order brand, marketing_name, device, model. -/
def buildMask (tbl : List DeviceRecord) (f : QueryFilter) : List Bool :=
  let mask := tbl.map fun _ => true
  let mask := if truthy f.brand then
    maskAnd mask (seriesContains tbl (fun r => r.retail_branding) (f.brand.getD "")) else mask
  let mask := if truthy f.marketing_name then
    maskAnd mask (seriesContains tbl (fun r => r.marketing_name) (f.marketing_name.getD "")) else mask
  let mask := if truthy f.device then
    maskAnd mask (seriesContains tbl (fun r => r.device) (f.device.getD "")) else mask
  let mask := if truthy f.model then
    maskAnd mask (seriesContains tbl (fun r => r.model) (f.model.getD "")) else mask
  mask

/-- `df[mask]`: keep the rows whose mask entry is `True`, in order
(main.py 186). -/
def applyMask (tbl : List DeviceRecord) (mask : List Bool) : List DeviceRecord :=
  ((tbl.zip mask).filter fun p => p.2).map fun p => p.1

/-- `_filter_devices` (main.py 158-215), with the dataset passed explicitly
(in the source it is the value returned by `_load_dataset()` at line 172).
Validation of `limit`/`page`, mask filtering, total/page computation
(`-(-total_matches // limit)` is Python floor division, `Int.fdiv`),
windowing by `iloc[offset : offset + limit]`, and the response record. -/
def filterDevices (tbl : List DeviceRecord) (f : QueryFilter)
    (limit page : Int) : Except HttpException DeviceLookupResponse :=
  if limit ≤ 0 then
    .error ⟨400, "limit must be a positive integer", []⟩
  else if page ≤ 0 then
    .error ⟨400, "page must be a positive integer", []⟩
  else
    let filtered := applyMask tbl (buildMask tbl f)
    let total_matches : Int := filtered.length
    let total_pages : Int :=
      if total_matches = 0 then 0 else -(Int.fdiv (-total_matches) limit)
    let offset : Int := (page - 1) * limit
    let limited : List DeviceRecord :=
      if offset ≥ total_matches then []
      else (filtered.drop offset.toNat).take limit.toNat
    .ok { total_matches := total_matches, limit := limit, page := page,
          total_pages := total_pages, results := limited }

/-- Python `int()` truncation toward zero of a rational.  The Python float
configuration value `COLD_START_DELAY_SECONDS` is modelled as a rational. -/
def pyInt (q : ℚ) : Int :=
  if 0 ≤ q then ⌊q⌋ else ⌈q⌉

/-- `COLD_START_DELAY_SECONDS = max(0.0, _read_float_env(...))` (main.py
91-93): the configured delay is clamped to be non-negative. -/
def coldStartDelay (raw : ℚ) : ℚ :=
  max 0 raw

/-- The `Retry-After` value computed in `_ensure_service_ready` (main.py 242):
`max(1, int(COLD_START_DELAY_SECONDS)) if COLD_START_DELAY_SECONDS else 1`. -/
def retryAfterSeconds (delay : ℚ) : Int :=
  if delay ≠ 0 then max 1 (pyInt delay) else 1

/-- `_ensure_service_ready` (main.py 227-247) as a sequential function of the
readiness flag `_cold_start_pending` and the configured delay: when the flag
is clear it returns, otherwise it raises 503 with the `Retry-After` header.
(The lazily spawned background timer task and the lock that serialises its
creation are concurrency plumbing and do not affect the per-request outcome
modelled here.) -/
def ensureServiceReady (pending : Bool) (delay : ℚ) : Except HttpException Unit :=
  if !pending then .ok ()
  else .error ⟨503, "Service is warming up. Please retry shortly.",
    [("Retry-After", toString (retryAfterSeconds delay))]⟩

/-- Per-identity admission log of the rate limiter: each admitted request is
recorded as (identity, arrival time in seconds).  Modelled from the spec:
the slowapi/limits internals are a third-party dependency, described in the
spec as two concurrently enforced sliding windows with atomic
check-and-increment; a rejected request is not recorded. -/
structure RateState where
  hits : List (String × Nat)
deriving Repr, DecidableEq

/-- `200/30minutes`: cap of the long window. -/
def CAP_LONG : Nat := 200
/-- 30 minutes, in seconds. -/
def WINDOW_LONG : Nat := 1800
/-- `50/5minutes`: cap of the short burst window. -/
def CAP_SHORT : Nat := 50
/-- 5 minutes, in seconds. -/
def WINDOW_SHORT : Nat := 300

/-- Number of admitted requests of identity `i` in the trailing window of
length `window` ending at `now`. -/
def countInWindow (hits : List (String × Nat)) (i : String) (now window : Nat) : Nat :=
  (hits.filter fun h => h.1 == i && now < h.2 + window).length

/-- One sliding-window check-and-increment step of the rate-limit gate
(`@limiter.limit("200/30minutes;50/5minutes")`): if both window caps still
have room the request is admitted and recorded; otherwise it is rejected
without being recorded.  Modelled from the spec (the limiter implementation
is third-party). -/
def rateLimitHit (s : RateState) (i : String) (now : Nat) : RateState × Bool :=
  if countInWindow s.hits i now WINDOW_LONG < CAP_LONG ∧
      countInWindow s.hits i now WINDOW_SHORT < CAP_SHORT then
    (⟨(i, now) :: s.hits⟩, true)
  else
    (s, false)

/-- The request metadata `_client_identifier` reads: headers (keys lowercase,
as the ASGI server stores them) and the transport peer (`request.client`,
whose `host` may be absent). -/
structure Request where
  headers : List (String × String)
  client_host : Option String
deriving Repr, DecidableEq

/-- `request.headers.get(name)`. -/
def headerGet (headers : List (String × String)) (name : String) : Option String :=
  (headers.find? fun p => p.1 == name).map fun p => p.2

/-- The X-Forwarded-For loop of `_client_identifier` (main.py 267-272):
when the header is truthy, the first comma-separated entry that is non-empty
after stripping (the loop returns the first stripped part that is truthy);
no value when the header is missing/empty or every entry strips to empty. -/
def xffCandidate (req : Request) : Option String :=
  let forwarded_for := (headerGet req.headers "x-forwarded-for").getD ""
  if forwarded_for ≠ "" then
    ((pySplitComma forwarded_for).map pyStrip).find? fun ip => !(ip == "")
  else none

/-- `_client_identifier` (main.py 265-286), translated clause by clause:
the X-Forwarded-For loop; then X-Real-IP, CF-Connecting-IP (each used when
truthy, returned stripped); then the peer host when truthy; else "unknown". -/
def clientIdentifier (req : Request) : String :=
  match xffCandidate req with
  | some ip => ip
  | none =>
    let real_ip := (headerGet req.headers "x-real-ip").getD ""
    if real_ip ≠ "" then pyStrip real_ip
    else
      let cf_ip := (headerGet req.headers "cf-connecting-ip").getD ""
      if cf_ip ≠ "" then pyStrip cf_ip
      else
        match req.client_host with
        | some host => if host ≠ "" then host else "unknown"
        | none => "unknown"

/-- Process-wide mutable state visible to the `/check` path: the readiness
flag, the configured delay, the rate-limit log, and the loaded table. -/
structure AppState where
  cold_start_pending : Bool
  delay : ℚ
  rate : RateState
  table : List DeviceRecord

/-- The query parameters of `/check`. -/
structure CheckArgs where
  brand : Option String
  marketing_name : Option String
  device : Option String
  model : Option String
  limit : Int
  page : Int
deriving Repr, DecidableEq

/-- The `/check` request path as composed in the source: the slowapi limiter
is attached around the endpoint (`app.add_middleware(SlowAPIMiddleware)` at
main.py 293 and the `@limiter.limit` decorator at main.py 329 — under either
mechanism the limit check-and-record runs before the endpoint body), and the
endpoint body (`check_device`, main.py 330-376) then runs
`_ensure_service_ready`, the missing-filter check, and `_filter_devices`. -/
def handleCheck (s : AppState) (req : Request) (a : CheckArgs) (now : Nat) :
    AppState × Except HttpException DeviceLookupResponse :=
  let i := clientIdentifier req
  let (rate2, allowed) := rateLimitHit s.rate i now
  let s2 := { s with rate := rate2 }
  if !allowed then
    (s2, .error ⟨429, "Rate limit exceeded", [("Retry-After", "")]⟩)
  else
    match ensureServiceReady s.cold_start_pending s.delay with
    | .error e => (s2, .error e)
    | .ok _ =>
      if !(truthy a.brand || truthy a.marketing_name || truthy a.device || truthy a.model) then
        (s2, .error ⟨400,
          "At least one filter parameter (brand, marketing_name, device, model) is required.",
          []⟩)
      else
        (s2, filterDevices s.table ⟨a.brand, a.marketing_name, a.device, a.model⟩ a.limit a.page)

/-- `read_health` (main.py 318-321): no gate is invoked (the route has no
limiter decoration and never calls `_ensure_service_ready`), so it is a
total function of the state returning status 200 and the status string. -/
def readHealth (s : AppState) : Nat × String :=
  (200, if s.cold_start_pending then "initializing" else "ok")

/-- Effect accounting for `_load_dataset` (main.py 130-155): number of times
the CSV file has been read by the process. -/
structure LoaderTrace where
  file_reads : Nat
deriving Repr, DecidableEq

/-- `_load_dataset` (main.py 130-155) over an in-memory image of the CSV
rows (four string cells per row).  The function carries no cache: its body
unconditionally runs `pd.read_csv` (only `_detect_encoding` carries an
`lru_cache`), so every call performs a file read — recorded in the trace —
and re-parses, renames the columns positionally, and strips every cell. -/
def loadDataset (rows : List (String × String × String × String))
    (t : LoaderTrace) : LoaderTrace × List DeviceRecord :=
  (⟨t.file_reads + 1⟩,
    rows.map fun c => ⟨pyStrip c.1, pyStrip c.2.1, pyStrip c.2.2.1, pyStrip c.2.2.2⟩)

/-- One field's condition as the filtering claim states it: a non-empty
pattern requires case-insensitive substring containment in the record's
corresponding field; an absent or empty pattern imposes no constraint. -/
def fieldMatches (pat : Option String) (cell : String) : Bool :=
  !(truthy pat) || containsCI cell (pat.getD "")

/-- The per-record matching predicate as the filtering claim states it:
the conjunction (AND) of the four per-field conditions. -/
def matchesClaim (f : QueryFilter) (r : DeviceRecord) : Bool :=
  fieldMatches f.brand r.retail_branding &&
  fieldMatches f.marketing_name r.marketing_name &&
  fieldMatches f.device r.device &&
  fieldMatches f.model r.model

/-- Client-identity resolution exactly as the claim words it: the first
non-empty source wins, where the X-Forwarded-For source contributes its
FIRST comma-separated entry, trimmed (even if that entry is empty). -/
def clientIdentifierClaim (req : Request) : String :=
  let forwarded_for := (headerGet req.headers "x-forwarded-for").getD ""
  if forwarded_for ≠ "" then pyStrip ((pySplitComma forwarded_for).headD "")
  else
    let real_ip := (headerGet req.headers "x-real-ip").getD ""
    if real_ip ≠ "" then pyStrip real_ip
    else
      let cf_ip := (headerGet req.headers "cf-connecting-ip").getD ""
      if cf_ip ≠ "" then pyStrip cf_ip
      else
        match req.client_host with
        | some host => if host ≠ "" then host else "unknown"
        | none => "unknown"

/-- First defined value in a list of optional values. -/
def firstSome : List (Option String) → Option String
  | [] => none
  | o :: rest =>
    match o with
    | some x => some x
    | none => firstSome rest

/-- The X-Real-IP source's candidate: its trimmed value when the header is
non-empty. -/
def realIpCandidate (req : Request) : Option String :=
  let real_ip := (headerGet req.headers "x-real-ip").getD ""
  if real_ip ≠ "" then some (pyStrip real_ip) else none

/-- The CF-Connecting-IP source's candidate: its trimmed value when the
header is non-empty. -/
def cfCandidate (req : Request) : Option String :=
  let cf_ip := (headerGet req.headers "cf-connecting-ip").getD ""
  if cf_ip ≠ "" then some (pyStrip cf_ip) else none

/-- The transport peer's candidate: its host when present and non-empty. -/
def peerCandidate (req : Request) : Option String :=
  match req.client_host with
  | some host => if host ≠ "" then some host else none
  | none => none

/-- The candidate value contributed by each identity source, in resolution
order, as the amended claim states it: X-Forwarded-For contributes its first
comma-separated entry that is non-empty after trimming (and no value when
all entries trim to empty), X-Real-IP and CF-Connecting-IP contribute their
trimmed value when non-empty, and the transport peer contributes its host
when non-empty. -/
def sourceCandidates (req : Request) : List (Option String) :=
  [xffCandidate req, realIpCandidate req, cfCandidate req, peerCandidate req]

/-- Identity resolution as the amended claim states it: the first source that
contributes a candidate wins; the literal fallback is used when no source
contributes one. -/
def clientIdentifierAmended (req : Request) : String :=
  (firstSome (sourceCandidates req)).getD "unknown"

/-- A process state in the warm-up window: cold start pending with a 5-second
configured delay, no rate-limit hits recorded, empty table. -/
def warmState : AppState :=
  { cold_start_pending := true, delay := 5, rate := ⟨[]⟩, table := [] }

/-- A request from 203.0.113.5 behind a proxy. -/
def reqC2 : Request :=
  ⟨[("x-forwarded-for", "203.0.113.5")], none⟩

/-- A well-formed query for brand Google. -/
def argsC2 : CheckArgs :=
  ⟨some "Google", none, none, none, 50, 1⟩

/-- A state whose short-window budget for client 203.0.113.5 is exhausted:
50 admitted requests at time 0. -/
def exhaustedState : AppState :=
  { cold_start_pending := true, delay := 5,
    rate := ⟨List.replicate 50 ("203.0.113.5", 0)⟩, table := [] }

/-- A request whose X-Forwarded-For first entry is empty: ` ,10.0.0.1`,
with an X-Real-IP fallback present. -/
def reqC7 : Request :=
  ⟨[("x-forwarded-for", " ,10.0.0.1"), ("x-real-ip", "198.51.100.7")], none⟩

/-! ### Helper lemmas about the mask machinery -/

theorem maskAnd_map (g h : DeviceRecord → Bool) :
    ∀ tbl : List DeviceRecord,
      maskAnd (tbl.map g) (tbl.map h) = tbl.map fun r => g r && h r
  | [] => rfl
  | r :: rest => by
    simp only [List.map_cons, maskAnd, List.zipWith_cons_cons]
    exact congrArg _ (maskAnd_map g h rest)

theorem maskStep (tbl : List DeviceRecord) (g : DeviceRecord → Bool) (c : Bool)
    (proj : DeviceRecord → String) (pat : String) :
    (if c then maskAnd (tbl.map g) (seriesContains tbl proj pat) else tbl.map g)
      = tbl.map fun r => g r && (!c || containsCI (proj r) pat) := by
  cases c with
  | false => simp
  | true =>
    simp only [if_pos, seriesContains]
    rw [maskAnd_map]
    simp

theorem buildMask_eq_map (tbl : List DeviceRecord) (f : QueryFilter) :
    buildMask tbl f = tbl.map fun r => matchesClaim f r := by
  unfold buildMask
  dsimp only
  rw [maskStep, maskStep, maskStep, maskStep]
  apply List.map_congr_left
  intro r _
  simp only [matchesClaim, fieldMatches, Bool.true_and, Bool.and_assoc]

theorem applyMask_map (g : DeviceRecord → Bool) :
    ∀ tbl : List DeviceRecord, applyMask tbl (tbl.map g) = tbl.filter g
  | [] => rfl
  | r :: rest => by
    simp only [List.map_cons, applyMask, List.zip_cons_cons, List.filter_cons]
    cases hg : g r with
    | false =>
      simpa [applyMask, hg] using applyMask_map g rest
    | true =>
      simp only [hg, if_pos, List.map_cons]
      exact congrArg _ (applyMask_map g rest)

/-- The rows surviving `_filter_devices`' mask are exactly the rows matching
the per-record predicate, in source order. -/
theorem filtered_eq_filter (tbl : List DeviceRecord) (f : QueryFilter) :
    applyMask tbl (buildMask tbl f) = tbl.filter fun r => matchesClaim f r := by
  rw [buildMask_eq_map, applyMask_map]

/-- A request the rate-limit gate rejects leaves the admission log
unchanged. -/
theorem rateLimitHit_rejected {rs : RateState} {i : String} {now : Nat}
    (h : (rateLimitHit rs i now).2 = false) : (rateLimitHit rs i now).1 = rs := by
  unfold rateLimitHit at h ⊢
  split at h
  · simp at h
  · rename_i hc
    rw [if_neg hc]

/-- A request the rate-limit gate admits is recorded in the admission log. -/
theorem rateLimitHit_admitted {rs : RateState} {i : String} {now : Nat}
    (h : (rateLimitHit rs i now).2 = true) :
    (rateLimitHit rs i now).1 = ⟨(i, now) :: rs.hits⟩ := by
  unfold rateLimitHit at h ⊢
  split at h
  · rename_i hc
    rw [if_pos hc]
  · simp at h

/-! ### Claim theorems -/

/-- C4: a record is included in the filtered result iff, for each of the four
fields whose pattern is non-empty, the record's corresponding field contains
that pattern as a case-insensitive substring; fields with no pattern impose
no constraint, and all specified patterns are conjoined (AND). -/
theorem checkC4_filter_membership (tbl : List DeviceRecord) (f : QueryFilter)
    (r : DeviceRecord) :
    r ∈ applyMask tbl (buildMask tbl f) ↔ r ∈ tbl ∧ matchesClaim f r = true := by
  rw [filtered_eq_filter, List.mem_filter]

/-- C9: the query operation is a pure function of (DeviceTable, filter, page,
limit): its outcome is unchanged between two process states agreeing on the
table, whatever their readiness flag, configured delay, or rate-limit log. -/
theorem checkC9_query_pure (s1 s2 : AppState) (f : QueryFilter)
    (limit page : Int) (h : s1.table = s2.table) :
    filterDevices s1.table f limit page = filterDevices s2.table f limit page := by
  rw [h]

/-- C9 witness: two states differing in readiness, delay and rate log but
agreeing on the table give identical query payloads. -/
theorem checkC9_query_pure_witness :
    filterDevices (AppState.table ⟨true, 5, ⟨[("9.9.9.9", 3)]⟩,
        [⟨"Google", "Pixel 9", "akita", "GR1YH"⟩]⟩)
      ⟨some "Google", none, none, none⟩ 50 1 =
    filterDevices (AppState.table ⟨false, 0, ⟨[]⟩,
        [⟨"Google", "Pixel 9", "akita", "GR1YH"⟩]⟩)
      ⟨some "Google", none, none, none⟩ 50 1 :=
  checkC9_query_pure ⟨true, 5, ⟨[("9.9.9.9", 3)]⟩, [⟨"Google", "Pixel 9", "akita", "GR1YH"⟩]⟩
    ⟨false, 0, ⟨[]⟩, [⟨"Google", "Pixel 9", "akita", "GR1YH"⟩]⟩
    ⟨some "Google", none, none, none⟩ 50 1 rfl

/-- C3 counterexample: the health endpoint reports the strings
`initializing`/`ok`, not the claimed `warming`/`ready`: in the ready state it
returns "ok" (which differs from "ready"), and while warming it returns
"initializing" (which differs from "warming"). -/
theorem checkC3_counterexample :
    (readHealth ⟨false, 0, ⟨[]⟩, []⟩).2 = "ok" ∧ "ok" ≠ "ready" ∧
    (readHealth ⟨true, 5, ⟨[]⟩, []⟩).2 = "initializing" ∧ "initializing" ≠ "warming" :=
  ⟨rfl, by decide, rfl, by decide⟩

/-- C3 (amended): the health operation always returns status 200 whatever the
process state (it is never gated), and its body is the string "initializing"
exactly while the readiness flag is set and "ok" once it is clear. -/
theorem checkC3_health (s : AppState) :
    (readHealth s).1 = 200 ∧
    ((readHealth s).2 = "initializing" ↔ s.cold_start_pending = true) ∧
    ((readHealth s).2 = "ok" ↔ s.cold_start_pending = false) := by
  cases hc : s.cold_start_pending <;> simp [readHealth, hc]

/-- C8: while warming, the readiness gate rejects with status 503 carrying a
Retry-After header whose value is derived from the configured delay and is at
least 1 (whole seconds). -/
theorem checkC8_warming_retry_after (delay : ℚ) :
    ensureServiceReady true delay =
      .error ⟨503, "Service is warming up. Please retry shortly.",
        [("Retry-After", toString (retryAfterSeconds delay))]⟩ ∧
    1 ≤ retryAfterSeconds delay := by
  refine ⟨rfl, ?_⟩
  unfold retryAfterSeconds
  split
  · exact le_max_left _ _
  · exact le_refl 1

/-- C1: `_load_dataset` carries no cache — each of two successive calls
performs a fresh file read (the read counter advances by two), even though
the parsed table it returns is the same whenever the file is unchanged. -/
theorem checkC1_loader_rereads (rows : List (String × String × String × String))
    (t : LoaderTrace) :
    (loadDataset rows (loadDataset rows t).1).1.file_reads = t.file_reads + 2 ∧
    (loadDataset rows (loadDataset rows t).1).2 = (loadDataset rows t).2 := by
  constructor <;> rfl

/-- C7 counterexample: on a request whose X-Forwarded-For first entry is
blank (` ,10.0.0.1`), the code skips the blank entry and resolves to
`10.0.0.1`, while the claimed rule (first comma-separated entry, trimmed, of
the first non-empty source) resolves to the empty string. -/
theorem checkC7_counterexample :
    clientIdentifier reqC7 = "10.0.0.1" ∧
    clientIdentifierClaim reqC7 = "" ∧
    clientIdentifier reqC7 ≠ clientIdentifierClaim reqC7 :=
  ⟨rfl, rfl, by decide⟩

/-- C7 (amended): identity resolution takes the first source that contributes
a value, where X-Forwarded-For contributes its first comma-separated entry
that is non-empty after trimming (whole header skipped when every entry trims
to empty), X-Real-IP / CF-Connecting-IP contribute their trimmed value when
non-empty, then the transport peer host, else the literal "unknown"; in
particular `X-Forwarded-For: 203.0.113.5, 10.0.0.1` resolves to 203.0.113.5. -/
theorem checkC7_identity (req : Request) :
    clientIdentifier req = clientIdentifierAmended req ∧
    clientIdentifier ⟨[("x-forwarded-for", "203.0.113.5, 10.0.0.1")], none⟩ =
      "203.0.113.5" := by
  constructor
  · unfold clientIdentifier clientIdentifierAmended sourceCandidates
    cases hx : xffCandidate req with
    | some ip => simp [firstSome, hx]
    | none =>
      simp only [hx, firstSome]
      by_cases hr : (headerGet req.headers "x-real-ip").getD "" = ""
      · by_cases hc : (headerGet req.headers "cf-connecting-ip").getD "" = ""
        · cases hh : req.client_host with
          | none =>
            simp [realIpCandidate, cfCandidate, peerCandidate, firstSome, hr, hc, hh]
          | some host =>
            by_cases hhe : host = "" <;>
              simp [realIpCandidate, cfCandidate, peerCandidate, firstSome, hr, hc, hh, hhe]
        · simp [realIpCandidate, cfCandidate, firstSome, hr, hc]
      · simp [realIpCandidate, firstSome, hr]
  · rfl

/-- C10: at the public query interface a request whose four filter
parameters are all supplied as empty strings is rejected with the 400
missing-filter client error (whenever the admission gates let it through),
and an empty-string pattern on any single field builds exactly the same
mask as an absent pattern on that field. -/
theorem checkC10_empty_filters :
    (∀ (s : AppState) (req : Request) (now : Nat),
      s.cold_start_pending = false →
      (rateLimitHit s.rate (clientIdentifier req) now).2 = true →
      (handleCheck s req ⟨some "", some "", some "", some "", 50, 1⟩ now).2 =
        .error ⟨400,
          "At least one filter parameter (brand, marketing_name, device, model) is required.",
          []⟩) ∧
    (∀ (tbl : List DeviceRecord) (f : QueryFilter),
      buildMask tbl { f with brand := some "" } = buildMask tbl { f with brand := none } ∧
      buildMask tbl { f with marketing_name := some "" } =
        buildMask tbl { f with marketing_name := none } ∧
      buildMask tbl { f with device := some "" } = buildMask tbl { f with device := none } ∧
      buildMask tbl { f with model := some "" } = buildMask tbl { f with model := none }) := by
  constructor
  · intro s req now hcold hallow
    unfold handleCheck
    rcases hrl : rateLimitHit s.rate (clientIdentifier req) now with ⟨r2, al⟩
    rw [hrl] at hallow
    simp only at hallow
    simp [hrl, hallow, ensureServiceReady, hcold, truthy]
  · intro tbl f
    exact ⟨rfl, rfl, rfl, rfl⟩

/-- C10 witness: a ready, under-budget request with all four filters given
as empty strings is answered with the 400 missing-filter error. -/
theorem checkC10_empty_filters_witness :
    (handleCheck ⟨false, 0, ⟨[]⟩, []⟩ reqC2 ⟨some "", some "", some "", some "", 50, 1⟩ 0).2 =
      .error ⟨400,
        "At least one filter parameter (brand, marketing_name, device, model) is required.",
        []⟩ :=
  checkC10_empty_filters.1 ⟨false, 0, ⟨[]⟩, []⟩ reqC2 0 rfl (by decide)

/-- C2 counterexample: in the warming state with a fresh rate budget, a
`/check` request is rejected by the readiness gate (503) and yet its
identity has been recorded against the rate-limit budget (the admission log
grows from empty to one hit), because the rate-limit gate wraps the handler
and therefore runs first. -/
theorem checkC2_counterexample :
    (handleCheck warmState reqC2 argsC2 0).2 =
      .error ⟨503, "Service is warming up. Please retry shortly.", [("Retry-After", "5")]⟩ ∧
    (handleCheck warmState reqC2 argsC2 0).1.rate.hits = [("203.0.113.5", 0)] ∧
    warmState.rate.hits = [] := by
  refine ⟨rfl, rfl, rfl⟩

/-- C2 (amended): the gates run rate-limit first, then readiness: a request
rejected by the rate-limit gate is answered 429 with no budget recorded and
without the readiness gate ever being evaluated (even while warming), while
a request admitted by the rate-limit gate during warming is answered 503
with its hit already recorded against the budget. -/
theorem checkC2_gate_order (s : AppState) (req : Request) (a : CheckArgs) (now : Nat) :
    ((rateLimitHit s.rate (clientIdentifier req) now).2 = false →
      (handleCheck s req a now).2 =
        .error ⟨429, "Rate limit exceeded", [("Retry-After", "")]⟩ ∧
      (handleCheck s req a now).1.rate = s.rate) ∧
    ((rateLimitHit s.rate (clientIdentifier req) now).2 = true →
      s.cold_start_pending = true →
      (handleCheck s req a now).2 =
        .error ⟨503, "Service is warming up. Please retry shortly.",
          [("Retry-After", toString (retryAfterSeconds s.delay))]⟩ ∧
      (handleCheck s req a now).1.rate.hits = (clientIdentifier req, now) :: s.rate.hits) := by
  constructor
  · intro hrej
    unfold handleCheck
    simp [hrej, rateLimitHit_rejected hrej]
  · intro hadm hwarm
    unfold handleCheck
    simp [hadm, hwarm, ensureServiceReady, rateLimitHit_admitted hadm]

/-- C2 witness: both directions of the amended gate-order theorem at
concrete inputs — an exhausted budget yields 429 (untouched log, readiness
never consulted) even though the service is warming, and a fresh budget
during warming yields 503 with the hit recorded. -/
theorem checkC2_gate_order_witness :
    ((handleCheck exhaustedState reqC2 argsC2 0).2 =
        .error ⟨429, "Rate limit exceeded", [("Retry-After", "")]⟩ ∧
      (handleCheck exhaustedState reqC2 argsC2 0).1.rate = exhaustedState.rate) ∧
    ((handleCheck warmState reqC2 argsC2 0).2 =
        .error ⟨503, "Service is warming up. Please retry shortly.",
          [("Retry-After", toString (retryAfterSeconds warmState.delay))]⟩ ∧
      (handleCheck warmState reqC2 argsC2 0).1.rate.hits =
        (clientIdentifier reqC2, 0) :: warmState.rate.hits) :=
  ⟨(checkC2_gate_order exhaustedState reqC2 argsC2 0).1 (by decide),
   (checkC2_gate_order warmState reqC2 argsC2 0).2 (by decide) rfl⟩

/-- Python's ceiling-by-double-negation `-(-tm // l)` (floor division) equals
the rational ceiling of `tm / l` for non-negative `tm` and positive `l`. -/
theorem neg_fdiv_neg_eq_ceil (tm l : Int) (hl : 0 < l) :
    -(Int.fdiv (-tm) l) = ⌈(tm : ℚ) / (l : ℚ)⌉ := by
  rw [Int.fdiv_eq_ediv _ hl.le]
  have h1 : -tm % l + l * (-tm / l) = -tm := Int.emod_add_ediv _ _
  have h2 : 0 ≤ -tm % l := Int.emod_nonneg _ (ne_of_gt hl)
  have h3 : -tm % l < l := Int.emod_lt_of_pos _ hl
  have hlQ : (0 : ℚ) < (l : ℚ) := by exact_mod_cast hl
  symm
  rw [Int.ceil_eq_iff]
  constructor
  · rw [lt_div_iff₀ hlQ]
    have hgoal : (-(-tm / l) - 1) * l < tm := by linarith
    exact_mod_cast hgoal
  · rw [div_le_iff₀ hlQ]
    have hgoal : tm ≤ -(-tm / l) * l := by linarith
    exact_mod_cast hgoal

/-- C5: for every valid query the returned totalPages is 0 exactly when
totalMatches is 0, and otherwise equals the ceiling of
totalMatches / limit. -/
theorem checkC5_total_pages (tbl : List DeviceRecord) (f : QueryFilter)
    (limit page : Int) (hl : 0 < limit) (hp : 0 < page) :
    ∃ resp, filterDevices tbl f limit page = .ok resp ∧
      (resp.total_pages = 0 ↔ resp.total_matches = 0) ∧
      (resp.total_matches ≠ 0 →
        resp.total_pages = ⌈(resp.total_matches : ℚ) / (limit : ℚ)⌉) := by
  unfold filterDevices
  rw [if_neg (by omega), if_neg (by omega)]
  refine ⟨_, rfl, ?_, ?_⟩ <;> dsimp only
  · set tm : Int := ((applyMask tbl (buildMask tbl f)).length : Int) with htm
    have h0 : 0 ≤ tm := Int.natCast_nonneg _
    constructor
    · intro h
      by_contra hne
      rw [if_neg hne, neg_fdiv_neg_eq_ceil tm limit hl] at h
      have hpos : 0 < ⌈(tm : ℚ) / (limit : ℚ)⌉ := by
        refine Int.ceil_pos.mpr (div_pos ?_ (by exact_mod_cast hl))
        exact_mod_cast lt_of_le_of_ne h0 (Ne.symm hne)
      omega
    · intro h
      rw [if_pos h]
  · set tm : Int := ((applyMask tbl (buildMask tbl f)).length : Int) with htm
    have h0 : 0 ≤ tm := Int.natCast_nonneg _
    intro hne
    rw [if_neg hne]
    exact neg_fdiv_neg_eq_ceil tm limit hl

/-- C5 witness: the spec scenario brand="o", limit=1 on the two-row table
(totalMatches 2, totalPages 2 = ceil(2/1)). -/
theorem checkC5_total_pages_witness :
    ∃ resp, filterDevices
        [⟨"Google", "Pixel 9", "akita", "GR1YH"⟩,
         ⟨"Nothing", "Phone (2)", "nothing", "AIN142"⟩]
        ⟨some "o", none, none, none⟩ 1 1 = .ok resp ∧
      (resp.total_pages = 0 ↔ resp.total_matches = 0) ∧
      (resp.total_matches ≠ 0 →
        resp.total_pages = ⌈(resp.total_matches : ℚ) / ((1 : Int) : ℚ)⌉) :=
  checkC5_total_pages _ _ 1 1 (by decide) (by decide)

/-- C6: for every valid query the returned slice is the window of the
filtered sequence from offset (page−1)·limit to offset+limit, truncated to
the available matches (a sublist of the filtered sequence, hence in source
order); when the offset reaches totalMatches the slice is empty while the
response is still a success. -/
theorem checkC6_window (tbl : List DeviceRecord) (f : QueryFilter)
    (limit page : Int) (hl : 0 < limit) (hp : 0 < page) :
    ∃ resp, filterDevices tbl f limit page = .ok resp ∧
      resp.results =
        ((tbl.filter fun r => matchesClaim f r).drop ((page - 1) * limit).toNat).take
          limit.toNat ∧
      ((((tbl.filter fun r => matchesClaim f r).length : Int) ≤ (page - 1) * limit) →
        resp.results = []) ∧
      resp.results.Sublist (tbl.filter fun r => matchesClaim f r) := by
  unfold filterDevices
  rw [if_neg (by omega), if_neg (by omega)]
  refine ⟨_, rfl, ?_, ?_, ?_⟩ <;> dsimp only <;> rw [filtered_eq_filter]
  · by_cases ho :
      ((page - 1) * limit : Int) ≥ (((tbl.filter fun r => matchesClaim f r).length : Nat) : Int)
    · rw [if_pos ho, List.drop_eq_nil_of_le (by omega), List.take_nil]
    · rw [if_neg ho]
  · intro hoff
    rw [if_pos (by omega)]
  · by_cases ho :
      ((page - 1) * limit : Int) ≥ (((tbl.filter fun r => matchesClaim f r).length : Nat) : Int)
    · rw [if_pos ho]
      exact List.nil_sublist _
    · rw [if_neg ho]
      exact (List.take_sublist _ _).trans (List.drop_sublist _ _)

/-- C6 witness: the spec scenario brand="Google", page=999 on the two-row
table (empty slice, success). -/
theorem checkC6_window_witness :
    ∃ resp, filterDevices
        [⟨"Google", "Pixel 9", "akita", "GR1YH"⟩,
         ⟨"Nothing", "Phone (2)", "nothing", "AIN142"⟩]
        ⟨some "Google", none, none, none⟩ 50 999 = .ok resp ∧
      resp.results =
        ((List.filter (fun r => matchesClaim ⟨some "Google", none, none, none⟩ r)
            [⟨"Google", "Pixel 9", "akita", "GR1YH"⟩,
             ⟨"Nothing", "Phone (2)", "nothing", "AIN142"⟩]).drop
          (((999 : Int) - 1) * 50).toNat).take ((50 : Int)).toNat ∧
      ((((List.filter (fun r => matchesClaim ⟨some "Google", none, none, none⟩ r)
            [⟨"Google", "Pixel 9", "akita", "GR1YH"⟩,
             ⟨"Nothing", "Phone (2)", "nothing", "AIN142"⟩]).length : Int) ≤
          ((999 : Int) - 1) * 50) →
        resp.results = []) ∧
      resp.results.Sublist
        (List.filter (fun r => matchesClaim ⟨some "Google", none, none, none⟩ r)
          [⟨"Google", "Pixel 9", "akita", "GR1YH"⟩,
           ⟨"Nothing", "Phone (2)", "nothing", "AIN142"⟩]) :=
  checkC6_window _ _ 50 999 (by decide) (by decide)

end DeviceChecker
